import Mathlib

/-!
# Verification development for the moomoo-proxy WebSocket relay

The repository contains two variants of the same relay server:

* `src/index.js` (referred to below as the index variant), and
* `src/unnamed/part_000` (referred to below as the part variant).

Both accept a client WebSocket connection carrying a `region` query
parameter, pick a forward proxy by round-robin, solve the backend's
proof-of-work challenge (`generateToken`), dial the upstream backend and
relay traffic in both directions until either side closes.

This file gives a shallow embedding of the state and operations of both
variants, translated directly from the JavaScript source, and proves (or
refutes) the specification claims about them.  External library calls
(`crypto.createHash('sha256')`, the network, the WebSocket transport) are
boundaries: the hash is abstracted as a function parameter, network and
socket activity is modelled by explicit events delivered to the handlers
that the source installs.
-/

namespace MoomooProxy

/-! ## ProxyPool: round-robin selection

`src/index.js` lines 60-65:

```
function getNextProxy() {
    if (proxyList.length === 0) return null;
    const proxy = proxyList[proxyIndex % proxyList.length];
    proxyIndex++;
    return proxy;
}
```

The mutable module state `proxyIndex` is passed explicitly; the function
returns the selected proxy together with the updated cursor.
-/

def getNextProxy (proxyList : List String) (proxyIndex : Nat) :
    Option String × Nat :=
  if proxyList.length = 0 then (none, proxyIndex)
  else (proxyList[proxyIndex % proxyList.length]?, proxyIndex + 1)

/-- `n` consecutive `getNextProxy` calls starting from cursor `proxyIndex`,
in call order. -/
def selections (proxyList : List String) (proxyIndex : Nat) :
    Nat → List (Option String)
  | 0 => []
  | Nat.succ k =>
    let r := getNextProxy proxyList proxyIndex
    r.1 :: selections proxyList r.2 k

/-- `src/unnamed/part_000` lines 72-80:

```
function pickProxyIndex() {
    const n = proxyList.length;
    if (n === 0) return -1;
    const idx = rrCursor % n;
    rrCursor = (rrCursor + 1) % n;
    return idx;
}
```

The `-1` sentinel for the empty list is modelled as `none`. -/
def pickProxyIndex (n rrCursor : Nat) : Option Nat × Nat :=
  if n = 0 then (none, rrCursor)
  else (some (rrCursor % n), (rrCursor + 1) % n)

/-- `k` consecutive `pickProxyIndex` calls over a pool of `n` proxies
starting from cursor `rrCursor`, in call order. -/
def pickSelections (n rrCursor : Nat) : Nat → List (Option Nat)
  | 0 => []
  | Nat.succ k =>
    let r := pickProxyIndex n rrCursor
    r.1 :: pickSelections n r.2 k

/-! ## ProxyPool: token-fetch throttle

`src/unnamed/part_000` lines 29 and 103-107:

```
const TOKEN_RATE_WINDOW_MS = 400;
...
if (proxyIdx >= 0 && proxyState[proxyIdx]) {
    const until = proxyState[proxyIdx].lastTokenAt + TOKEN_RATE_WINDOW_MS - Date.now();
    if (until > 0) await sleep(until);
    proxyState[proxyIdx].lastTokenAt = Date.now();
}
```

A caller consults the throttle at instant `now` while the endpoint's
timestamp is `lastTokenAt`; after the optional sleep the fetch is issued
at `fetchBegin lastTokenAt now`, and `lastTokenAt` is assigned exactly
that instant.  Note that the assignment happens only after the sleep, not
at consult time. -/

def TOKEN_RATE_WINDOW_MS : Int := 400

/-- The `until` value of `src/unnamed/part_000` line 104. -/
def throttleUntil (lastTokenAt now : Int) : Int :=
  lastTokenAt + TOKEN_RATE_WINDOW_MS - now

/-- The instant at which the fetch is issued (and the value written to
`lastTokenAt` at that instant, line 106). -/
def fetchBegin (lastTokenAt now : Int) : Int :=
  if 0 < throttleUntil lastTokenAt now then lastTokenAt + TOKEN_RATE_WINDOW_MS
  else now

/-- Two callers that both consult the throttle before either has reached
line 106: the second consults at `tB` while the first is suspended in
`await sleep` (i.e. `tA ≤ tB` and `tB` is before `fetchBegin lastTokenAt tA`).
Both read the same `lastTokenAt`, so their fetch-begin instants are
computed from the same stale timestamp. -/
def overlapBegins (lastTokenAt tA tB : Int) : Int × Int :=
  (fetchBegin lastTokenAt tA, fetchBegin lastTokenAt tB)

/-! ## ChallengeSolver

`generateToken` of both variants (`src/index.js` lines 102-143,
`src/unnamed/part_000` lines 101-155) parses the verification response and
brute-forces the proof-of-work:

```
const { challenge, salt, maxnumber, signature } = json;
if (!challenge || !salt || maxnumber === undefined) { ... resolve(null); return; }
for (let i = 0; i <= maxnumber; i++) {
    const hash = crypto.createHash('sha256').update(salt + i).digest('hex');
    if (hash === challenge) { ... number: i ... }
}
```

The SHA-256 call is an external library boundary and is abstracted as the
function parameter `hash`.  JavaScript field absence and falsiness are
modelled with `Option`: a missing field is `none`, and `!challenge` is
true for both a missing and an empty string.  `maxnumber === undefined`
tests presence only.  `salt + i` concatenates the decimal form of `i`.
-/

structure VerifyResponse where
  challenge : Option String
  salt : Option String
  maxnumber : Option Nat
  signature : Option String

/-- JavaScript falsiness of an optional string field (`!x`): true when the
field is absent or the empty string. -/
def strFalsy : Option String → Bool
  | none => true
  | some s => s == ""

def SHA256_NAME : String := "SHA-256"

/-- The JSON payload that the solver base64-encodes into the token. -/
structure TokenPayload where
  algorithm : String
  challenge : String
  salt : String
  number : Nat
  signature : Option String

/-- The brute-force loop: first list element satisfying `p`, together with
the number of hash computations performed (one per iteration, stopping at
the first match). -/
def findCount (p : Nat → Bool) : List Nat → Option Nat × Nat
  | [] => (none, 0)
  | i :: rest =>
    if p i then (some i, 1)
    else
      let r := findCount p rest
      (r.1, r.2 + 1)

/-- The loop-body test `hash === challenge` at candidate `i`. -/
def candidateHits (hash : String → String) (challenge salt : String)
    (i : Nat) : Bool :=
  hash (salt ++ toString i) == challenge

/-- `generateToken` after the fetch: field validation, then the
brute-force loop; returns the token payload (or `none`) together with the
number of hash computations performed. -/
def generateTokenRun (hash : String → String) (resp : VerifyResponse) :
    Option TokenPayload × Nat :=
  if strFalsy resp.challenge || strFalsy resp.salt || resp.maxnumber.isNone then
    (none, 0)
  else
    let challenge := resp.challenge.getD ""
    let salt := resp.salt.getD ""
    let maxnumber := resp.maxnumber.getD 0
    match findCount (candidateHits hash challenge salt)
        (List.range (maxnumber + 1)) with
    | (some i, c) =>
      (some { algorithm := SHA256_NAME, challenge := challenge, salt := salt,
              number := i, signature := resp.signature }, c)
    | (none, c) => (none, c)

/-- The token result alone (the `resolve`d value of the source function,
up to the base64 envelope encoding). -/
def generateToken (hash : String → String) (resp : VerifyResponse) :
    Option TokenPayload :=
  (generateTokenRun hash resp).1

/-! ## Close propagation to the client

`src/index.js` lines 303-313:

```
const safeCode = (code >= 1000 && code <= 1003) || (code >= 1007 && code <= 1014)
                 || (code >= 3000 && code <= 4999) ? code : 1000;
clientWs.close(safeCode, reasonStr.slice(0, 123)); // reason max 123 bytes
```

A JavaScript string is a sequence of UTF-16 code units and `slice` counts
code units; the reason is modelled as the list of its code points
(restricted to the basic multilingual plane, so one code point = one code
unit) and the transport-level size of the reason is its UTF-8 byte
length. -/

def safeCode (code : Nat) : Nat :=
  if (1000 ≤ code ∧ code ≤ 1003) ∨ (1007 ≤ code ∧ code ≤ 1014) ∨
     (3000 ≤ code ∧ code ≤ 4999) then code
  else 1000

/-- `reasonStr.slice(0, 123)`. -/
def sliceReason (reason : List Nat) : List Nat := reason.take 123

/-- UTF-8 byte count of one BMP code point. -/
def unitBytes (u : Nat) : Nat :=
  if u < 128 then 1 else if u < 2048 then 2 else 3

/-- UTF-8 byte length of a reason string. -/
def byteLen (reason : List Nat) : Nat := (reason.map unitBytes).sum

/-! ## RelaySession: pre-ready buffering and the readiness transition

Message payloads are opaque; they are modelled as `Nat`.  The events of
interest for the ordering claim are the arrival of a client message and
the upstream `open` event (which makes `upstream.readyState === OPEN`).

Index variant, `src/index.js`:

* lines 217-218: `const messageQueue = []; let upstreamReady = false;`
* lines 259-279 (`upstream.on('open')`): set `upstreamReady = true`, then
  `while (messageQueue.length > 0) { upstream.send(messageQueue.shift()); }`
* lines 336-342 (`clientWs.on('message')`): if
  `upstreamReady && upstream.readyState === OPEN` then `upstream.send(data)`
  else `messageQueue.push(data)`.

Part variant, `src/unnamed/part_000`:

* line 247: `let upstreamReady = false;` — there is no message queue;
* lines 271-275 (`onClientMessage`): if
  `upstreamReady && upstream.readyState === OPEN` then `upstream.send(msg)`
  else nothing at all;
* lines 293-305 (`upstream.on('open')`): set `upstreamReady = true`
  (no flush — nothing to flush).

`upstreamSent` records, in order, the payloads handed to `upstream.send`.
-/

inductive RelayEv where
  | clientMsg (m : Nat)
  | upstreamOpen

structure RelayState where
  upstreamReady : Bool
  upstreamOpenFlag : Bool
  messageQueue : List Nat
  upstreamSent : List Nat
  deriving Repr, DecidableEq

/-- One event of the index variant's session. -/
def stepIndex (s : RelayState) : RelayEv → RelayState
  | RelayEv.clientMsg m =>
    if s.upstreamReady ∧ s.upstreamOpenFlag then
      { s with upstreamSent := s.upstreamSent ++ [m] }
    else
      { s with messageQueue := s.messageQueue ++ [m] }
  | RelayEv.upstreamOpen =>
    { s with upstreamReady := true, upstreamOpenFlag := true,
             upstreamSent := s.upstreamSent ++ s.messageQueue,
             messageQueue := [] }

def runIndex (s : RelayState) (evs : List RelayEv) : RelayState :=
  evs.foldl stepIndex s

/-- Session state at `src/index.js` lines 217-218 (before any event). -/
def relayInit : RelayState :=
  { upstreamReady := false, upstreamOpenFlag := false,
    messageQueue := [], upstreamSent := [] }

/-- The part variant's session state: no queue exists. -/
structure RelayStatePart where
  upstreamReady : Bool
  upstreamOpenFlag : Bool
  upstreamSent : List Nat
  deriving Repr, DecidableEq

/-- One event of the part variant's session (`onClientMessage` drops the
message when the upstream is not ready). -/
def stepPart (s : RelayStatePart) : RelayEv → RelayStatePart
  | RelayEv.clientMsg m =>
    if s.upstreamReady ∧ s.upstreamOpenFlag then
      { s with upstreamSent := s.upstreamSent ++ [m] }
    else s
  | RelayEv.upstreamOpen =>
    { s with upstreamReady := true, upstreamOpenFlag := true }

def runPart (s : RelayStatePart) (evs : List RelayEv) : RelayStatePart :=
  evs.foldl stepPart s

def relayInitPart : RelayStatePart :=
  { upstreamReady := false, upstreamOpenFlag := false, upstreamSent := [] }

/-- The client messages contained in an event list, in order. -/
def clientMsgs (evs : List RelayEv) : List Nat :=
  evs.filterMap fun e =>
    match e with
    | RelayEv.clientMsg m => some m
    | RelayEv.upstreamOpen => none

/-! ## Teardown of the part variant (`src/unnamed/part_000`)

Lines 250-262:

```
const cleanup = () => {
    if (keepAliveTimer) { clearInterval(keepAliveTimer); keepAliveTimer = null; }
    if (proxyIdx >= 0 && proxyState[proxyIdx]) { proxyState[proxyIdx].active--; }
    clientSocket.off('message', onClientMessage);
    clientSocket.off('close', onClientClose);
    clientSocket.off('error', onClientError);
};
```

We model a session that acquired a proxy endpoint (`proxyIdx >= 0`), so
`cleanup` always decrements `active`.  Note that `cleanup` detaches only
the *client* socket's listeners; the upstream socket's listeners are
never removed.

Lines 277-281 (`onClientClose`): `cleanup(); upstream.close();` — closing
the upstream makes the upstream `'close'` event fire next.

Lines 313-325 (`upstream.on('close')`): `upstreamReady = false; cleanup();
clientSocket.close();` — this handler is attached directly with
`upstream.on` and is never detached, so it runs whenever the upstream
closes, even if `cleanup` already ran. -/

structure SessState where
  active : Int
  keepAliveTimer : Bool
  clientListenersAttached : Bool
  upstreamReady : Bool
  deriving Repr, DecidableEq

/-- `cleanup` of `src/unnamed/part_000` lines 250-262, for a session whose
`proxyIdx >= 0`. -/
def cleanup (s : SessState) : SessState :=
  { s with keepAliveTimer := false,
           active := s.active - 1,
           clientListenersAttached := false }

/-- Body of `onClientClose` (lines 277-281); the `upstream.close()` call it
makes is modelled by delivering the upstream close event afterwards. -/
def onClientClose (s : SessState) : SessState := cleanup s

/-- Delivery of the client socket's `'close'` event: the handler runs only
while it is attached. -/
def deliverClientClose (s : SessState) : SessState :=
  if s.clientListenersAttached then onClientClose s else s

/-- Body of the `upstream.on('close')` handler (lines 313-325); this
listener is never detached, so delivery is unconditional.  The
`clientSocket.close()` it performs can only re-trigger `deliverClientClose`,
which is a no-op once the client listeners are detached. -/
def onUpstreamClose (s : SessState) : SessState :=
  cleanup { s with upstreamReady := false }

/-! ## ConnectionGateway

`wss.on('connection')` of both variants.  The inputs that determine the
control path are the `region` query parameter, whether a proxy list is
configured, whether token generation succeeds, and whether the client
closed while the token fetch / jitter sleep was in flight.  Neither
variant ever consults the client socket's state between the `await`s and
the upstream dial (`src/index.js` lines 222-253, `src/unnamed/part_000`
lines 213-245), so the model's control flow cannot depend on
`clientClosedDuringConnect` — that faithfully reflects the source.

Region validation (`src/index.js` line 197, `src/unnamed/part_000`
line 192): `if (!region || !/\.moomoo\.io$/i.test(region))`.  The regex is
a case-insensitive suffix test; the region is modelled as a list of
characters and the test lower-cases ASCII letters, as the `i` flag does.

On an invalid region the index variant runs `clientWs.close(1008,
'Invalid region')` while the part variant runs `clientSocket.close()`
with no arguments, i.e. with no close code at all. -/

/-- ASCII lower-casing of one character (the effect of the regex `i` flag
on the pattern's letters). -/
def lcChar (c : Char) : Char :=
  if 'A' ≤ c ∧ c ≤ 'Z' then Char.ofNat (c.toNat + 32) else c

/-- The fixed pattern `.moomoo.io` of the regex. -/
def mooSuffix : List Char :=
  ['.', 'm', 'o', 'o', 'm', 'o', 'o', '.', 'i', 'o']

/-- `region && /\.moomoo\.io$/i.test(region)`: present, non-empty and
ending (case-insensitively) in `.moomoo.io`. -/
def regionValid : Option (List Char) → Bool
  | none => false
  | some r => !r.isEmpty && List.isSuffixOf mooSuffix (r.map lcChar)

structure ConnInput where
  region : Option (List Char)
  hasProxies : Bool
  tokenOk : Bool
  clientClosedDuringConnect : Bool

/-- Observable effects of one run of the connection handler.
`closedBy = some c` means the handler itself closed the client right away
with close code `c` (`c = none`: a `close()` call with no code);
`proxyAcquired` means an endpoint was taken from the pool;
`sessionCreated` means the relay session was wired up (listeners on both
sockets); `upstreamDialed` means `new WebSocket(moomooUrl, ...)` ran. -/
structure ConnEffects where
  sessionCreated : Bool
  proxyAcquired : Bool
  tokenFetchIssued : Bool
  upstreamDialed : Bool
  closedBy : Option (Option Nat)
  deriving Repr, DecidableEq

/-- Connection handler of `src/index.js` lines 190-365. -/
def connectIndex (inp : ConnInput) : ConnEffects :=
  if regionValid inp.region = false then
    { sessionCreated := false, proxyAcquired := false,
      tokenFetchIssued := false, upstreamDialed := false,
      closedBy := some (some 1008) }
  else if inp.tokenOk = false then
    { sessionCreated := false, proxyAcquired := inp.hasProxies,
      tokenFetchIssued := true, upstreamDialed := false,
      closedBy := some (some 1011) }
  else
    { sessionCreated := true, proxyAcquired := inp.hasProxies,
      tokenFetchIssued := true, upstreamDialed := true,
      closedBy := none }

/-- Connection handler of `src/unnamed/part_000` lines 185-331.  Both of
its early-exit paths call `close()` with no arguments. -/
def connectPart (inp : ConnInput) : ConnEffects :=
  if regionValid inp.region = false then
    { sessionCreated := false, proxyAcquired := false,
      tokenFetchIssued := false, upstreamDialed := false,
      closedBy := some none }
  else if inp.tokenOk = false then
    { sessionCreated := false, proxyAcquired := inp.hasProxies,
      tokenFetchIssued := true, upstreamDialed := false,
      closedBy := some none }
  else
    { sessionCreated := true, proxyAcquired := inp.hasProxies,
      tokenFetchIssued := true, upstreamDialed := true,
      closedBy := none }

/-! ## Concrete values used by witnesses -/

/-- A concrete digest value for witness instances. -/
def digestW : String := "d"

/-- A concrete non-matching hash output for witness instances. -/
def missW : String := "m"

/-- A concrete salt for witness instances. -/
def saltW : String := "ab"

/-- The one preimage that `hashW` maps to `digestW`: `saltW ++ "2"`. -/
def hitW : String := "ab2"

/-- A concrete stand-in for the SHA-256 boundary in witness instances. -/
def hashW : String → String := fun s => if s = hitW then digestW else missW

/-- A concrete valid region host, `eu1.moomoo.io`. -/
def regionEu : List Char :=
  ['e', 'u', '1', '.', 'm', 'o', 'o', 'm', 'o', 'o', '.', 'i', 'o']

/-- Concrete proxy connection strings for witness instances. -/
def pA : String := "a"

/-- Concrete proxy connection strings for witness instances. -/
def pB : String := "b"

/-- Concrete proxy connection strings for witness instances. -/
def pC : String := "c"

/-- Connection-handler input with the region parameter absent. -/
def connInputNoRegion : ConnInput :=
  { region := none, hasProxies := true, tokenOk := true,
    clientClosedDuringConnect := false }

/-- Connection-handler input: valid region, configured proxies, token
fetch succeeds, but the client closed while the fetch was in flight. -/
def connInputClosedDuring : ConnInput :=
  { region := some regionEu, hasProxies := true, tokenOk := true,
    clientClosedDuringConnect := true }

/-! ## Theorems -/

/-- C1: the claim states that running a session's teardown path any number
of times decrements the owning endpoint's active count by exactly 1 and
that the count never becomes negative.  The code violates this: in
`src/unnamed/part_000`, `cleanup` detaches only the client socket's
listeners, while the `upstream.on('close')` handler stays attached and
itself calls `cleanup`.  When the client closes first (`onClientClose`
runs `cleanup` and then `upstream.close()`), the subsequent upstream
close event runs `cleanup` a second time: starting from one acquired
session (`active = 1`) the count ends at `-1`. -/
theorem cleanup_double_decrement :
    (deliverClientClose (onUpstreamClose (deliverClientClose
        { active := 1, keepAliveTimer := true,
          clientListenersAttached := true, upstreamReady := true }))).active
      = -1 := by
  decide

/-- C2 (counterexample): the claim says a second fetch through the same
endpoint never begins sooner than 400 ms after the first was issued,
because `lastTokenFetchAt` is updated as a side effect of consulting the
throttle.  In the code the write to `lastTokenAt` (line 106) happens only
*after* `await sleep(until)`, so a second caller that consults during the
first caller's sleep reads the stale timestamp.  Concretely with
`lastTokenAt = 0`: caller A consults at t = 100 and sleeps until 400;
caller B consults at t = 200 (during A's sleep, before A's write) and
also sleeps until 400.  Both fetches begin at t = 400 — the second begins
0 ms after the first was issued, not ≥ 400 ms. -/
theorem throttle_overlap_bypass :
    (overlapBegins 0 100 200).1 = 400 ∧
    (overlapBegins 0 100 200).2 = 400 ∧
    (100 : Int) ≤ 200 ∧ (200 : Int) < (overlapBegins 0 100 200).1 ∧
    ¬ ((overlapBegins 0 100 200).1 + TOKEN_RATE_WINDOW_MS ≤
        (overlapBegins 0 100 200).2) := by
  decide

/-- C2 (amended): for two fetches in which the second consults the
throttle only after the first caller has completed its wait and written
`lastTokenAt` (so the second reads the first's begin instant), the second
fetch begins no sooner than `TOKEN_RATE_WINDOW_MS` after the first was
issued.  The timestamp is written only when the wait completes, so the
guarantee holds for non-overlapping consultations only. -/
theorem throttle_sequential_spacing (lastTokenAt t1 t2 : Int) :
    fetchBegin lastTokenAt t1 + TOKEN_RATE_WINDOW_MS ≤
      fetchBegin (fetchBegin lastTokenAt t1) t2 := by
  generalize fetchBegin lastTokenAt t1 = b1
  unfold fetchBegin throttleUntil TOKEN_RATE_WINDOW_MS
  split <;> omega

/-- C3 (counterexample): the claim says every client message submitted
while the session is connecting is appended to a FIFO queue — not
dropped — and flushed on the transition to relaying.  In
`src/unnamed/part_000` there is no queue: `onClientMessage` forwards only
when `upstreamReady` and otherwise does nothing.  Submitting message 5
before the upstream opens and message 7 after it, the upstream receives
only `[7]`: message 5 is silently dropped, and the session state retains
no trace of it. -/
theorem part_drops_preready_message :
    runPart relayInitPart
        [RelayEv.clientMsg 5, RelayEv.upstreamOpen, RelayEv.clientMsg 7] =
      { upstreamReady := true, upstreamOpenFlag := true,
        upstreamSent := [7] } ∧
    clientMsgs [RelayEv.clientMsg 5, RelayEv.upstreamOpen,
        RelayEv.clientMsg 7] = [5, 7] := by
  constructor <;> rfl

/-- Pre-ready client messages only enqueue in the index variant. -/
theorem runIndex_preready (pre : List Nat) :
    ∀ (q s : List Nat) (b : Bool),
      runIndex { upstreamReady := false, upstreamOpenFlag := b,
                 messageQueue := q, upstreamSent := s }
          (pre.map RelayEv.clientMsg) =
        { upstreamReady := false, upstreamOpenFlag := b,
          messageQueue := q ++ pre, upstreamSent := s } := by
  induction pre with
  | nil => intro q s b; simp [runIndex]
  | cons m rest ih =>
    intro q s b
    simp only [List.map_cons, runIndex, List.foldl_cons, stepIndex]
    simp only [Bool.false_eq_true, false_and, if_false]
    have := ih (q ++ [m]) s b
    simp only [runIndex] at this
    rw [this, List.append_assoc]
    rfl

/-- Post-ready client messages are forwarded directly in the index
variant. -/
theorem runIndex_postready (post : List Nat) :
    ∀ s : List Nat,
      runIndex { upstreamReady := true, upstreamOpenFlag := true,
                 messageQueue := [], upstreamSent := s }
          (post.map RelayEv.clientMsg) =
        { upstreamReady := true, upstreamOpenFlag := true,
          messageQueue := [], upstreamSent := s ++ post } := by
  induction post with
  | nil => intro s; simp [runIndex]
  | cons m rest ih =>
    intro s
    simp only [List.map_cons, runIndex, List.foldl_cons, stepIndex]
    simp only [true_and, if_true]
    have := ih (s ++ [m])
    simp only [runIndex] at this
    rw [this, List.append_assoc]
    rfl

/-- `clientMsgs` recovers the payload list from pure client-message
traffic. -/
theorem clientMsgs_map (l : List Nat) :
    clientMsgs (l.map RelayEv.clientMsg) = l := by
  unfold clientMsgs
  induction l with
  | nil => rfl
  | cons m rest ih => simpa [List.filterMap_cons] using ih

/-- `clientMsgs` distributes over concatenation of event lists. -/
theorem clientMsgs_append (l₁ l₂ : List RelayEv) :
    clientMsgs (l₁ ++ l₂) = clientMsgs l₁ ++ clientMsgs l₂ := by
  simp [clientMsgs, List.filterMap_append]

/-- The upstream `open` event carries no client payload. -/
theorem clientMsgs_open_cons (l : List RelayEv) :
    clientMsgs (RelayEv.upstreamOpen :: l) = clientMsgs l := by
  simp [clientMsgs, List.filterMap_cons]

/-- C3 (amended): in the `src/index.js` variant the claim holds — every
client message submitted while the upstream is not yet ready is appended
to the FIFO `messageQueue` (not dropped, not forwarded), and on the
upstream `open` event the queue is flushed to the upstream in FIFO order
before any post-ready message, so all client messages are delivered
upstream in submission order across the readiness transition.  In the
`src/unnamed/part_000` variant pre-ready client messages are silently
discarded instead (see the counterexample). -/
theorem queue_fifo_across_open (pre post : List Nat) :
    runIndex relayInit (pre.map RelayEv.clientMsg) =
      { upstreamReady := false, upstreamOpenFlag := false,
        messageQueue := pre, upstreamSent := [] } ∧
    runIndex relayInit
        (pre.map RelayEv.clientMsg ++ RelayEv.upstreamOpen ::
          post.map RelayEv.clientMsg) =
      { upstreamReady := true, upstreamOpenFlag := true,
        messageQueue := [], upstreamSent := pre ++ post } ∧
    clientMsgs (pre.map RelayEv.clientMsg ++ RelayEv.upstreamOpen ::
        post.map RelayEv.clientMsg) = pre ++ post := by
  have hpre := runIndex_preready pre [] [] false
  refine ⟨by simpa [relayInit] using hpre, ?_, ?_⟩
  · simp only [runIndex, List.foldl_append, List.foldl_cons]
    have h1 : List.foldl stepIndex relayInit (pre.map RelayEv.clientMsg) =
        { upstreamReady := false, upstreamOpenFlag := false,
          messageQueue := pre, upstreamSent := [] } := by
      simpa [runIndex, relayInit] using hpre
    rw [h1]
    have h2 : stepIndex
        { upstreamReady := false, upstreamOpenFlag := false,
          messageQueue := pre, upstreamSent := [] } RelayEv.upstreamOpen =
        { upstreamReady := true, upstreamOpenFlag := true,
          messageQueue := [], upstreamSent := pre } := by
      simp [stepIndex]
    rw [h2]
    simpa [runIndex] using runIndex_postready post pre
  · rw [clientMsgs_append, clientMsgs_open_cons, clientMsgs_map,
      clientMsgs_map]

/-- C8 (counterexample): the claim says an invalid or absent region is
rejected with a distinguishing close code.  In `src/unnamed/part_000`
line 194 the rejection is `clientSocket.close()` with no arguments: the
close carries no code at all (`closedBy = some none`), so no
distinguishing close code is sent. -/
theorem part_reject_without_code :
    connInputNoRegion.region = none ∧
    (connectPart connInputNoRegion).closedBy = some none := by
  constructor <;> rfl

/-- C8 (amended): for every inbound connection whose region is absent or
not a hostname ending (case-insensitively) in `.moomoo.io`, both variants
reject the connection immediately: no session is created, no proxy
endpoint is acquired, no challenge fetch is issued and no upstream dial
happens.  The `src/index.js` variant closes the client with the
distinguishing code 1008; the `src/unnamed/part_000` variant closes it
with a plain `close()` carrying no code. -/
theorem invalid_region_rejected (inp : ConnInput)
    (h : regionValid inp.region = false) :
    connectIndex inp =
      { sessionCreated := false, proxyAcquired := false,
        tokenFetchIssued := false, upstreamDialed := false,
        closedBy := some (some 1008) } ∧
    connectPart inp =
      { sessionCreated := false, proxyAcquired := false,
        tokenFetchIssued := false, upstreamDialed := false,
        closedBy := some none } := by
  constructor
  · unfold connectIndex
    rw [if_pos h]
  · unfold connectPart
    rw [if_pos h]

/-- Witness for C8's amended theorem at the concrete input
`region = none` (the region parameter is absent). -/
theorem invalid_region_rejected_witness :
    connectPart connInputNoRegion =
      { sessionCreated := false, proxyAcquired := false,
        tokenFetchIssued := false, upstreamDialed := false,
        closedBy := some none } :=
  (invalid_region_rejected connInputNoRegion (by decide)).2

/-- C9: the claim states that a client close during `Connecting` aborts
the asynchronous connect chain and that an upstream relay is never
established for an already-closed client.  The code violates this:
neither variant consults the client socket's state between the awaited
token fetch (and jitter sleep) and the upstream dial — `src/index.js`
lines 222-253 and `src/unnamed/part_000` lines 213-245 proceed straight
to `new WebSocket(moomooUrl, ...)`.  (In addition, the client `'close'`
listener is attached only after the dial, so a close event that fired
during the awaits is never handled at all.)  At the failing input — a
valid region, a successful token fetch and a client that closed during
the fetch — both variants still dial the upstream and wire up the relay
session. -/
theorem dial_ignores_client_close :
    connInputClosedDuring.clientClosedDuringConnect = true ∧
    regionValid connInputClosedDuring.region = true ∧
    (connectIndex connInputClosedDuring).upstreamDialed = true ∧
    (connectPart connInputClosedDuring).upstreamDialed = true ∧
    (connectPart connInputClosedDuring).sessionCreated = true := by
  decide

/-- An all-ASCII reason occupies one byte per code unit. -/
theorem byteLen_ascii (l : List Nat) (h : ∀ u ∈ l, u < 128) :
    byteLen l = l.length := by
  induction l with
  | nil => rfl
  | cons x xs ih =>
    have hx : x < 128 := h x (List.mem_cons_self x xs)
    have hxs := ih fun u hu => h u (List.mem_cons_of_mem x hu)
    simp only [byteLen, List.map_cons, List.sum_cons, List.length_cons] at *
    simp only [unitBytes, if_pos hx]
    omega

/-- C4 (counterexample): the claim says a reason string longer than 123
bytes is truncated to exactly 123 bytes.  `reasonStr.slice(0, 123)`
counts UTF-16 code units, not bytes: a reason of 124 copies of U+00A2
(two UTF-8 bytes each) is 248 bytes long, and the code's truncation
leaves 123 code units = 246 bytes, not 123 bytes. -/
theorem reason_truncation_not_bytes :
    123 < byteLen (List.replicate 124 162) ∧
    byteLen (sliceReason (List.replicate 124 162)) = 246 ∧
    byteLen (sliceReason (List.replicate 124 162)) ≠ 123 := by
  have h1 : sliceReason (List.replicate 124 162) = List.replicate 123 162 := by
    simp [sliceReason, List.take_replicate]
  have h2 : ∀ n : Nat, byteLen (List.replicate n 162) = 2 * n := by
    intro n
    induction n with
    | zero => rfl
    | succ k ih =>
      rw [List.replicate_succ]
      simp only [byteLen, List.map_cons, List.sum_cons]
      have hu : unitBytes 162 = 2 := by decide
      simp only [byteLen] at ih
      omega
  refine ⟨?_, ?_, ?_⟩
  · rw [h2]; omega
  · rw [h1, h2]
  · rw [h1, h2]; omega

/-- C4 (amended): codes 1004, 1005, 1006 and 1015 (and in fact every code
outside the sendable ranges) are remapped to the normal-closure code
1000; codes in 1000-1003, 1007-1014 and 3000-4999 pass through
unchanged; and the reason string is truncated to its first 123 UTF-16
code units — which is exactly 123 bytes whenever the reason is ASCII,
but not in general (see the counterexample). -/
theorem close_propagation_ok (code : Nat) (reason : List Nat) :
    (code = 1004 ∨ code = 1005 ∨ code = 1006 ∨ code = 1015 →
      safeCode code = 1000) ∧
    ((1000 ≤ code ∧ code ≤ 1003) ∨ (1007 ≤ code ∧ code ≤ 1014) ∨
        (3000 ≤ code ∧ code ≤ 4999) →
      safeCode code = code) ∧
    (sliceReason reason).length = min reason.length 123 ∧
    ((∀ u ∈ reason, u < 128) →
      byteLen (sliceReason reason) = min (byteLen reason) 123) := by
  refine ⟨?_, ?_, ?_, ?_⟩
  · intro h
    unfold safeCode
    rw [if_neg]
    omega
  · intro h
    unfold safeCode
    rw [if_pos h]
  · simp [sliceReason, List.length_take, Nat.min_comm]
  · intro h
    have hslice : ∀ u ∈ sliceReason reason, u < 128 := by
      intro u hu
      exact h u (List.mem_of_mem_take hu)
    rw [byteLen_ascii _ hslice, byteLen_ascii _ h]
    simp [sliceReason, List.length_take, Nat.min_comm]

/-- Witness for C4's amended theorem: code 1005 is remapped to 1000, code
3500 passes through, and a 200-character ASCII reason is truncated to
exactly 123 bytes. -/
theorem close_propagation_ok_witness :
    safeCode 1005 = 1000 ∧ safeCode 3500 = 3500 ∧
    byteLen (sliceReason (List.replicate 200 65)) =
      min (byteLen (List.replicate 200 65)) 123 :=
  ⟨(close_propagation_ok 1005 []).1 (by omega),
   (close_propagation_ok 3500 []).2.1 (by omega),
   (close_propagation_ok 1000 (List.replicate 200 65)).2.2.2
     fun u hu => by rw [List.eq_of_mem_replicate hu]; omega⟩

/-- If no element satisfies `p`, the loop tries every element. -/
theorem findCount_eq_none (p : Nat → Bool) (l : List Nat)
    (h : ∀ x ∈ l, p x = false) : findCount p l = (none, l.length) := by
  induction l with
  | nil => rfl
  | cons x xs ih =>
    have hx := h x (List.mem_cons_self x xs)
    have hxs := ih fun y hy => h y (List.mem_cons_of_mem x hy)
    simp [findCount, hx, hxs]

/-- A failing prefix only adds its length to the iteration count. -/
theorem findCount_append (p : Nat → Bool) (l₁ l₂ : List Nat)
    (h : ∀ x ∈ l₁, p x = false) :
    findCount p (l₁ ++ l₂) =
      ((findCount p l₂).1, l₁.length + (findCount p l₂).2) := by
  induction l₁ with
  | nil => simp
  | cons x xs ih =>
    have hx := h x (List.mem_cons_self x xs)
    have hxs := ih fun y hy => h y (List.mem_cons_of_mem x hy)
    simp [findCount, hx, hxs]
    omega

/-- A hit at the head stops the loop after one iteration. -/
theorem findCount_cons_hit (p : Nat → Bool) (x : Nat) (xs : List Nat)
    (h : p x = true) : findCount p (x :: xs) = (some x, 1) := by
  simp [findCount, h]

/-- A successful search splits the list at the first hit. -/
theorem findCount_eq_some (p : Nat → Bool) :
    ∀ (l : List Nat) (a : Nat), (findCount p l).1 = some a →
      ∃ t₁ t₂, l = t₁ ++ a :: t₂ ∧ (∀ b ∈ t₁, p b = false) ∧
        p a = true := by
  intro l
  induction l with
  | nil => intro a h; simp [findCount] at h
  | cons x xs ih =>
    intro a h
    by_cases hx : p x = true
    · rw [findCount_cons_hit p x xs hx] at h
      simp only [Option.some.injEq] at h
      subst h
      exact ⟨[], xs, rfl, by simp, hx⟩
    · have hx' : p x = false := by
        simpa using hx
      have hxs : (findCount p xs).1 = some a := by
        simpa [findCount, hx'] using h
      obtain ⟨t₁, t₂, rfl, hall, hpa⟩ := ih a hxs
      refine ⟨x :: t₁, t₂, rfl, ?_, hpa⟩
      intro b hb
      rcases List.mem_cons.mp hb with hb | hb
      · subst hb; exact hx'
      · exact hall b hb

/-- The first hit position in `range (M+1)`: searching `0..M` with the
least match at `k` stops at `k` with `k + 1` iterations. -/
theorem findCount_range_least (p : Nat → Bool) (M k : Nat) (hk : k ≤ M)
    (hpk : p k = true) (hleast : ∀ j < k, p j = false) :
    findCount p (List.range (M + 1)) = (some k, k + 1) := by
  have hsplit : List.range (M + 1) =
      List.range k ++ (List.range (M + 1 - k)).map (k + ·) := by
    have h1 : k + (M + 1 - k) = M + 1 := by omega
    conv_lhs => rw [← h1]
    rw [List.range_add]
  have hhead : (List.range (M + 1 - k)).map (k + ·) =
      k :: ((List.range (M - k)).map Nat.succ).map (k + ·) := by
    have h2 : M + 1 - k = (M - k) + 1 := by omega
    rw [h2, List.range_succ_eq_map]
    simp
  have hfail : ∀ x ∈ List.range k, p x = false := by
    intro x hx
    exact hleast x (List.mem_range.mp hx)
  rw [hsplit, findCount_append p _ _ hfail, hhead,
    findCount_cons_hit p k _ hpk]
  simp

/-- Any hit returned by the search over `range (M+1)` is the least match
and lies in `0..M`. -/
theorem findCount_range_inv (p : Nat → Bool) (M i : Nat)
    (h : (findCount p (List.range (M + 1))).1 = some i) :
    i ≤ M ∧ p i = true ∧ ∀ j < i, p j = false := by
  obtain ⟨t₁, t₂, hsplit, hall, hpi⟩ := findCount_eq_some p _ i h
  have hlen : t₁.length + (t₂.length + 1) = M + 1 := by
    have := congrArg List.length hsplit
    simpa using this.symm
  have hlt : t₁.length < M + 1 := by omega
  have hi : i = t₁.length := by
    have hget : (List.range (M + 1))[t₁.length]? = some i := by
      rw [hsplit]
      rw [List.getElem?_append_right (Nat.le_refl t₁.length)]
      simp
    rw [List.getElem?_range hlt] at hget
    exact (Option.some.injEq _ _ ▸ hget).symm
  have ht₁ : t₁ = List.range i := by
    have h3 := congrArg (List.take t₁.length) hsplit
    rw [List.take_left] at h3
    rw [List.take_range, Nat.min_eq_left (Nat.le_of_lt hlt)] at h3
    rw [hi]
    exact h3.symm
  refine ⟨by omega, hpi, ?_⟩
  intro j hj
  exact hall j (ht₁ ▸ List.mem_range.mpr (hi ▸ hj))

/-- The validation test of `generateToken` passes exactly when
`challenge` and `salt` are present and non-empty and `maxnumber` is
present. -/
theorem generateTokenRun_valid (hash : String → String)
    (resp : VerifyResponse) (challenge salt : String) (M : Nat)
    (hc : resp.challenge = some challenge) (hcne : challenge ≠ "")
    (hs : resp.salt = some salt) (hsne : salt ≠ "")
    (hm : resp.maxnumber = some M) :
    generateTokenRun hash resp =
      (match findCount (candidateHits hash challenge salt)
          (List.range (M + 1)) with
       | (some i, c) =>
         (some { algorithm := SHA256_NAME, challenge := challenge,
                 salt := salt, number := i,
                 signature := resp.signature }, c)
       | (none, c) => (none, c)) := by
  have hval : (strFalsy resp.challenge || strFalsy resp.salt ||
      resp.maxnumber.isNone) = false := by
    rw [hc, hs, hm]
    simp only [strFalsy, Option.isNone_some, Bool.or_false,
      Bool.or_eq_false_iff]
    exact ⟨beq_eq_false_iff_ne.mpr hcne, beq_eq_false_iff_ne.mpr hsne⟩
  unfold generateTokenRun
  rw [hval]
  simp only [Bool.false_eq_true, if_false, hc, hs, hm, Option.getD_some]

/-- C5: for every challenge with bound `maxnumber = M`, if `k` is the
least integer in `[0, M]` whose hash of `salt ++ decimal(k)` equals the
challenge digest, the solver returns a token whose `number` field equals
`k`; every returned number is `≤ M` and is the first matching index; and
if no integer in `[0, M]` matches, the solver returns no token.  The
SHA-256 library call is the boundary parameter `hash`. -/
theorem solver_returns_least_match (hash : String → String)
    (resp : VerifyResponse) (challenge salt : String) (M : Nat)
    (hc : resp.challenge = some challenge) (hcne : challenge ≠ "")
    (hs : resp.salt = some salt) (hsne : salt ≠ "")
    (hm : resp.maxnumber = some M) :
    (∀ k, k ≤ M → candidateHits hash challenge salt k = true →
      (∀ j < k, candidateHits hash challenge salt j = false) →
      ∃ t : TokenPayload, generateToken hash resp = some t ∧
        t.number = k) ∧
    (∀ t : TokenPayload, generateToken hash resp = some t →
      t.number ≤ M ∧ candidateHits hash challenge salt t.number = true ∧
      ∀ j < t.number, candidateHits hash challenge salt j = false) ∧
    ((∀ i ≤ M, candidateHits hash challenge salt i = false) →
      generateToken hash resp = none) := by
  have hrun := generateTokenRun_valid hash resp challenge salt M
    hc hcne hs hsne hm
  refine ⟨?_, ?_, ?_⟩
  · intro k hk hpk hleast
    have hfc := findCount_range_least (candidateHits hash challenge salt)
      M k hk hpk hleast
    refine ⟨{ algorithm := SHA256_NAME, challenge := challenge,
              salt := salt, number := k,
              signature := resp.signature }, ?_, rfl⟩
    unfold generateToken
    rw [hrun, hfc]
  · intro t ht
    unfold generateToken at ht
    rw [hrun] at ht
    rcases hfc : findCount (candidateHits hash challenge salt)
        (List.range (M + 1)) with ⟨r, c⟩
    rcases r with _ | i
    · rw [hfc] at ht
      simp at ht
    · rw [hfc] at ht
      simp only [Option.some.injEq] at ht
      have hnum : t.number = i := by rw [← ht]
      have hinv := findCount_range_inv (candidateHits hash challenge salt)
        M i (by rw [hfc])
      rw [hnum]
      exact hinv
  · intro hnone
    have hfail : ∀ x ∈ List.range (M + 1),
        candidateHits hash challenge salt x = false := by
      intro x hx
      exact hnone x (by have := List.mem_range.mp hx; omega)
    unfold generateToken
    rw [hrun, findCount_eq_none _ _ hfail]

/-- Witness for C5 at a concrete instance: digest `d`, salt `ab`, bound
5, with the unique (hence least) match at index 2. -/
theorem solver_returns_least_match_witness :
    ∃ t : TokenPayload,
      generateToken hashW
          { challenge := some digestW, salt := some saltW,
            maxnumber := some 5, signature := none } = some t ∧
      t.number = 2 :=
  (solver_returns_least_match hashW
      { challenge := some digestW, salt := some saltW,
        maxnumber := some 5, signature := none }
      digestW saltW 5 rfl (by decide) rfl (by decide) rfl).1
    2 (by decide) (by decide) (by decide)

/-- C6: if the `challenge`, `salt` or `maxnumber` field is missing from
the fetched verification response, token generation fails and performs
zero hash computations — the brute-force loop is never entered. -/
theorem missing_fields_zero_hashes (hash : String → String)
    (resp : VerifyResponse)
    (h : resp.challenge = none ∨ resp.salt = none ∨
      resp.maxnumber = none) :
    generateTokenRun hash resp = (none, 0) := by
  unfold generateTokenRun
  rcases h with h | h | h <;> rw [h] <;> simp [strFalsy]

/-- Witness for C6 at the concrete input with `challenge` absent. -/
theorem missing_fields_zero_hashes_witness :
    generateTokenRun hashW
        { challenge := none, salt := some saltW,
          maxnumber := some 5, signature := none } = (none, 0) :=
  missing_fields_zero_hashes hashW
    { challenge := none, salt := some saltW,
      maxnumber := some 5, signature := none } (Or.inl rfl)

/-- C10: at the solver's input boundary, an empty-string `challenge` or
`salt` is treated exactly like a missing field (the JavaScript test
`!challenge || !salt` is a falsiness test): generation fails with zero
hash computations, identically to the `none` case.  A present
`maxnumber = 0`, by contrast, passes validation (`maxnumber ===
undefined` tests presence only) and exactly one candidate, `i = 0`, is
tested. -/
theorem empty_fields_and_zero_maxnumber (hash : String → String)
    (resp : VerifyResponse) :
    (generateTokenRun hash { resp with challenge := some "" } =
        (none, 0) ∧
      generateTokenRun hash { resp with challenge := some "" } =
        generateTokenRun hash { resp with challenge := none }) ∧
    (generateTokenRun hash { resp with salt := some "" } = (none, 0) ∧
      generateTokenRun hash { resp with salt := some "" } =
        generateTokenRun hash { resp with salt := none }) ∧
    (∀ challenge salt, resp.challenge = some challenge → challenge ≠ "" →
      resp.salt = some salt → salt ≠ "" → resp.maxnumber = some 0 →
      (generateTokenRun hash resp).2 = 1 ∧
      (generateTokenRun hash resp).1 =
        (if candidateHits hash challenge salt 0 = true then
          some { algorithm := SHA256_NAME, challenge := challenge,
                 salt := salt, number := 0,
                 signature := resp.signature }
         else none)) := by
  refine ⟨⟨?_, ?_⟩, ⟨?_, ?_⟩, ?_⟩
  · unfold generateTokenRun
    simp [strFalsy]
  · unfold generateTokenRun
    simp [strFalsy]
  · unfold generateTokenRun
    simp [strFalsy]
  · unfold generateTokenRun
    simp [strFalsy]
  · intro challenge salt hc hcne hs hsne hm
    have hrun := generateTokenRun_valid hash resp challenge salt 0
      hc hcne hs hsne hm
    have hrange : List.range (0 + 1) = [0] := rfl
    by_cases hp : candidateHits hash challenge salt 0 = true
    · have hfc : findCount (candidateHits hash challenge salt)
          (List.range (0 + 1)) = (some 0, 1) := by
        rw [hrange]
        exact findCount_cons_hit _ 0 [] hp
      rw [hrun, hfc]
      simp [hp]
    · have hp' : candidateHits hash challenge salt 0 = false := by
        simpa using hp
      have hfc : findCount (candidateHits hash challenge salt)
          (List.range (0 + 1)) = (none, 1) := by
        rw [hrange]
        exact findCount_eq_none _ _ (by simpa using hp')
      rw [hrun, hfc]
      simp [hp']

/-- Witness for C10: with digest `d`, salt `ab` and `maxnumber = 0` the
run performs exactly one hash computation and finds no match (the single
candidate 0 does not hash to the digest); and an empty-string challenge
fails with zero hash computations. -/
theorem empty_fields_and_zero_maxnumber_witness :
    (generateTokenRun hashW
        { challenge := some digestW, salt := some saltW,
          maxnumber := some 0, signature := none }).2 = 1 ∧
    generateTokenRun hashW
        { challenge := some "", salt := some saltW,
          maxnumber := some 0, signature := none } = (none, 0) :=
  ⟨((empty_fields_and_zero_maxnumber hashW
      { challenge := some digestW, salt := some saltW,
        maxnumber := some 0, signature := none }).2.2
      digestW saltW rfl (by decide) rfl (by decide) rfl).1,
   (empty_fields_and_zero_maxnumber hashW
      { challenge := some digestW, salt := some saltW,
        maxnumber := some 0, signature := none }).1.1⟩

/-- Closed form of `n` consecutive `getNextProxy` selections: the `i`-th
selection is the entry at rotating index `(c + i) % length`. -/
theorem selections_eq (l : List String) (h : l.length ≠ 0) :
    ∀ (n c : Nat), selections l c n =
      (List.range n).map (fun i => l[(c + i) % l.length]?) := by
  intro n
  induction n with
  | zero => intro c; rfl
  | succ k ih =>
    intro c
    simp only [selections, getNextProxy, if_neg h]
    rw [List.range_succ_eq_map, List.map_cons, List.map_map]
    congr 1
    rw [ih (c + 1)]
    apply List.map_congr_left
    intro i hi
    simp only [Function.comp_apply]
    have harith : c + 1 + i = c + (i + 1) := by omega
    rw [harith]

/-- The rotating index sequence `(c + i) % N` for `i < N` is a
permutation of `0..N-1`. -/
theorem rotIndices_perm (N c : Nat) (h : 0 < N) :
    ((List.range N).map fun i => (c + i) % N).Perm (List.range N) := by
  have hnodup : ((List.range N).map fun i => (c + i) % N).Nodup := by
    refine List.Nodup.map_on ?_ (List.nodup_range N)
    intro i hi j hj hij
    have hi' : i < N := List.mem_range.mp hi
    have hj' : j < N := List.mem_range.mp hj
    have h2 : i % N = j % N := Nat.ModEq.add_left_cancel' c hij
    rwa [Nat.mod_eq_of_lt hi', Nat.mod_eq_of_lt hj'] at h2
  have hsub : ((List.range N).map fun i => (c + i) % N) ⊆ List.range N := by
    intro x hx
    obtain ⟨i, _, rfl⟩ := List.mem_map.mp hx
    exact List.mem_range.mpr (Nat.mod_lt _ h)
  refine List.Subperm.perm_of_length_le
    (List.subperm_of_subset hnodup hsub) ?_
  simp

/-- Closed form of `k` consecutive `pickProxyIndex` selections
(`src/unnamed/part_000`): same rotating index sequence, with the cursor
kept reduced modulo `N`. -/
theorem pickSelections_eq (N : Nat) (h : N ≠ 0) :
    ∀ (k c : Nat), pickSelections N c k =
      (List.range k).map fun i => some ((c + i) % N) := by
  intro k
  induction k with
  | zero => intro c; rfl
  | succ k ih =>
    intro c
    simp only [pickSelections, pickProxyIndex, if_neg h]
    rw [List.range_succ_eq_map, List.map_cons, List.map_map]
    congr 1
    rw [ih ((c + 1) % N)]
    apply List.map_congr_left
    intro i hi
    simp only [Function.comp_apply]
    congr 1
    rw [Nat.mod_add_mod]
    have harith : c + 1 + i = c + (i + 1) := by omega
    rw [harith]

/-- C7: for every configured proxy list of length `N ≥ 1`, `N`
consecutive selections starting from any cursor return the entries at
the rotating indices `(c + i) % N`, a sequence that is a permutation of
`0..N-1` in which every index occurs exactly once — i.e. each endpoint is
returned exactly once, in stable rotating order; and on an empty list
selection returns `none` (direct connection) without error.  The part
variant's `pickProxyIndex` yields the same rotating index sequence. -/
theorem round_robin_each_once (l : List String) (c : Nat) (h : l ≠ []) :
    selections l c l.length =
      (List.range l.length).map (fun i => l[(c + i) % l.length]?) ∧
    ((List.range l.length).map fun i => (c + i) % l.length).Perm
      (List.range l.length) ∧
    (∀ j < l.length,
      ((List.range l.length).map fun i => (c + i) % l.length).count j
        = 1) ∧
    (∀ c', getNextProxy [] c' = (none, c')) ∧
    (∀ c' k, pickSelections l.length c' k =
      (List.range k).map fun i => some ((c' + i) % l.length)) := by
  have hlen : l.length ≠ 0 := by
    simpa [List.length_eq_zero] using h
  have hpos : 0 < l.length := Nat.pos_of_ne_zero hlen
  refine ⟨selections_eq l hlen l.length c, rotIndices_perm _ c hpos,
    ?_, ?_, ?_⟩
  · intro j hj
    have hperm := rotIndices_perm l.length c hpos
    rw [hperm.count_eq]
    exact List.count_eq_one_of_mem (List.nodup_range _)
      (List.mem_range.mpr hj)
  · intro c'
    rfl
  · intro c' k
    exact pickSelections_eq l.length hlen k c'

/-- Witness for C7 on the concrete three-endpoint pool starting from
cursor 4: selections rotate `b, c, a`. -/
theorem round_robin_each_once_witness :
    ([pA, pB, pC] : List String) ≠ [] ∧
    selections [pA, pB, pC] 4 3 =
      (List.range 3).map
        (fun i => ([pA, pB, pC] : List String)[(4 + i) % 3]?) ∧
    selections [pA, pB, pC] 4 3 = [some pB, some pC, some pA] :=
  ⟨by decide, (round_robin_each_once [pA, pB, pC] 4 (by decide)).1,
    by decide⟩

end MoomooProxy
